import Mathlib

/-!
Shallow embedding of the rx reactive-stream library (Rust) in Lean 4.

The embedding follows the source files:
  * `src/lifeline.rs`  : the Lifeline/Owner decoupled-ownership pair,
    modelled by the state of the shared `Rc<RefCell<Option<T>>>` cell.
  * `src/observer.rs`  : the Observer trait and the subscription-helper
    observers (NextObserver, ErrorObserver, OptionObserver, ResultObserver).
  * `src/lib.rs`       : the finite-container (iterable) source.
  * `src/subject.rs`   : the Subject multicast broadcaster.
  * `src/transform.rs` : the Map and ContinueWith combinators.

Observers are modelled by a state type together with the three protocol
methods; a synchronous source is modelled by the sequence of calls it
performs on a subscribed observer (zero or more items followed by at most
one terminal call, exactly the contract stated in `observable.rs`).
Side effects of the Rust code (callback invocations, clone counts,
panics) are made explicit in return values.
-/

namespace Rx

/-- A notification received by an observer: one of the three protocol
methods of the `Observer` trait in `observer.rs`. -/
inductive Event (T E : Type) where
  | next (item : T)
  | completed
  | error (e : E)
deriving Repr, DecidableEq

/-- How a synchronous source run ends: with `on_completed`, with
`on_error e`, or not at all (a hot or never source). -/
inductive Terminal (E : Type) where
  | completed
  | error (e : E)
  | never
deriving Repr, DecidableEq

/-- The events a terminal produces on the observer. -/
def Terminal.events {T E : Type} : Terminal E → List (Event T E)
  | .completed => [Event.completed]
  | .error e => [Event.error e]
  | .never => []

/-- An implementation of the `Observer` trait (`observer.rs`): a state
type `σ` with the three methods as state transformers. The terminal
methods consume the observer in Rust; in the model the discipline that
they are called at most once, last, is maintained by the source runs. -/
structure ObserverSig (T E σ : Type) where
  on_next : σ → T → σ
  on_completed : σ → σ
  on_error : σ → E → σ

/-- The canonical recording observer: its state is the list of events it
has received. -/
def recObserver (T E : Type) : ObserverSig T E (List (Event T E)) where
  on_next s t := s ++ [Event.next t]
  on_completed s := s ++ [Event.completed]
  on_error s e := s ++ [Event.error e]

/-- The behaviour of a synchronous observable toward a subscribed
observer, per the contract in `observable.rs`: zero or more `on_next`
calls in order, then at most one terminal call. -/
structure SourceRun (T E : Type) where
  items : List T
  terminal : Terminal E

/-- Subscribing observer `o` (in state `s`) to a synchronous source:
deliver each item with `on_next` in order, then the terminal call. -/
def runSource {T E σ : Type} (src : SourceRun T E) (o : ObserverSig T E σ) (s : σ) : σ :=
  let s1 := src.items.foldl o.on_next s
  match src.terminal with
  | .completed => o.on_completed s1
  | .error e => o.on_error s1 e
  | .never => s1

/-! ### Lifeline / Owner (`src/lifeline.rs`)

The pair shares one `Rc<RefCell<Option<T>>>` cell; the Lifeline holds the
strong reference, the Owner a weak one. The model tracks the state of that
cell: whether the strong reference still exists (so the weak upgrade
succeeds) and the content of the inner `Option<T>`. -/

/-- State of the shared storage cell of a Lifeline/Owner pair. `alive`
records whether the strong `Rc` held by the Lifeline still exists (so an
`upgrade()` of the weak reference held by the Owner succeeds); `stored`
is the content of the `Option<T>` inside the `RefCell`. -/
structure LifelineCell (T : Type) where
  alive : Bool
  stored : Option T
deriving Repr, DecidableEq

/-- Rust `lifeline::new(value)`: creates the pair with the cell alive and
holding the value. The cell state stands for the freshly created pair. -/
def lifeline.new {T : Type} (value : T) : LifelineCell T :=
  { alive := true, stored := some value }

/-- Dropping the Lifeline: the strong `Rc` is destroyed, so the cell and
any value still stored in it are dropped and Owner upgrades fail from now
on. Returns the resulting cell state together with the value that was
destroyed by the drop (`none` when the cell was already empty). -/
def Lifeline.release {T : Type} (c : LifelineCell T) : LifelineCell T × Option T :=
  ({ alive := false, stored := none }, c.stored)

/-- Rust `Owner::with_value(action)`: if the weak upgrade succeeds and a
value is stored, invoke the action on a shared view of it. The model
returns the result of the action when it was invoked and `none` when it
was not; the cell itself is unchanged (shared access). -/
def Owner.with_value {T A : Type} (c : LifelineCell T) (action : T → A) : Option A :=
  if c.alive then c.stored.map action else none

/-- Rust `Owner::with_mut_value(action)`: if the weak upgrade succeeds
and a value is stored, the action mutates it in place; otherwise nothing
happens. The `FnOnce(&mut T)` action is modelled state-passing as
`T → T`; the result is the updated cell. -/
def Owner.with_mut_value {T : Type} (c : LifelineCell T) (action : T → T) : LifelineCell T :=
  if c.alive then
    match c.stored with
    | some v => { c with stored := some (action v) }
    | none => c
  else c

/-- Rust `Owner::take()`: if the weak upgrade succeeds, `Option::take`
the cell content, returning it and leaving `None` behind; otherwise
return `None`. Returns the taken value and the resulting cell. -/
def Owner.take {T : Type} (c : LifelineCell T) : Option T × LifelineCell T :=
  if c.alive then (c.stored, { c with stored := none }) else (none, c)

/-! ### Subject (`src/subject.rs`) -/

/-- One registration in a Subject (`ObserverBox` in `subject.rs`): the
boxed, type-erased observer — modelled by its recording state — together
with the `rc::Weak<()>` aliveness marker. `alive` is whether
`alive.upgrade()` returns `Some(_)`, i.e. whether the
`SubjectSubscription` holding the strong `Rc` has not been dropped. -/
structure ObserverBox (T E : Type) where
  observer : List (Event T E)
  alive : Bool
deriving Repr, DecidableEq

/-- A Subject: the ordered collection of registrations
(`observers: Vec<ObserverBox<T, E>>`). -/
structure Subject (T E : Type) where
  observers : List (ObserverBox T E)
deriving Repr, DecidableEq

/-- Loop of `Subject::on_next` (`subject.rs`): for each registration in
order, if its subscription is still alive deliver `item.clone()` to the
boxed observer (counted as one clone); if it is dead do nothing — the
source carries only a TODO comment in the dead branch, so the dead box
stays in the list. Returns the updated list and the number of clones. -/
def Subject.onNextLoop {T E : Type} (item : T) :
    List (ObserverBox T E) → List (ObserverBox T E) × Nat
  | [] => ([], 0)
  | b :: rest =>
    let (rest2, n) := Subject.onNextLoop item rest
    if b.alive then
      ({ b with observer := b.observer ++ [Event.next item] } :: rest2, n + 1)
    else
      (b :: rest2, n)

/-- Rust `Subject::on_next`: run the loop over the registration list.
Returns the Subject afterwards and the number of `item.clone()` calls. -/
def Subject.on_next {T E : Type} (s : Subject T E) (item : T) : Subject T E × Nat :=
  let (obs, n) := Subject.onNextLoop item s.observers
  (⟨obs⟩, n)

/-- Loop of `Subject::on_completed` (`subject.rs`): `drain(..)` every
registration; an alive one receives `on_completed_box()` (its final
recorded trace is collected), a dead one is simply dropped without any
delivery. Nothing remains in the collection. -/
def Subject.onCompletedLoop {T E : Type} :
    List (ObserverBox T E) → List (List (Event T E))
  | [] => []
  | b :: rest =>
    if b.alive then
      (b.observer ++ [Event.completed]) :: Subject.onCompletedLoop rest
    else
      Subject.onCompletedLoop rest

/-- Rust `Subject::on_completed(mut self)`: consumes the Subject — no
Subject value is returned, so a second terminal call is impossible. The
result is the list of final observer traces of the alive recipients. -/
def Subject.on_completed {T E : Type} (s : Subject T E) : List (List (Event T E)) :=
  Subject.onCompletedLoop s.observers

/-- Loop of `Subject::on_error` (`subject.rs`): `drain(..)` every
registration; an alive one receives `on_error_box(error.clone())`
(counted as one clone of the error), a dead one is dropped without
delivery. -/
def Subject.onErrorLoop {T E : Type} (e : E) :
    List (ObserverBox T E) → List (List (Event T E)) × Nat
  | [] => ([], 0)
  | b :: rest =>
    let (ds, n) := Subject.onErrorLoop e rest
    if b.alive then
      ((b.observer ++ [Event.error e]) :: ds, n + 1)
    else
      (ds, n)

/-- Rust `Subject::on_error(mut self, error)`: consumes the Subject.
Returns the final observer traces of the alive recipients and the number
of `error.clone()` calls. -/
def Subject.on_error {T E : Type} (s : Subject T E) (e : E) :
    List (List (Event T E)) × Nat :=
  Subject.onErrorLoop e s.observers

/-- Rust `SubjectObservable::subscribe` (`subject.rs`): box the observer
(modelled as a fresh recording observer with empty trace), create the
`Rc`/`Weak` pair, push the registration, and hand the strong side to the
returned `SubjectSubscription`; the new registration starts alive. -/
def SubjectObservable.subscribe {T E : Type} (s : Subject T E) : Subject T E :=
  ⟨s.observers ++ [{ observer := [], alive := true }]⟩

/-- Marks the registration at the given index dead, leaving the others
untouched. -/
def Subject.markDead {T E : Type} :
    Nat → List (ObserverBox T E) → List (ObserverBox T E)
  | _, [] => []
  | 0, b :: rest => { b with alive := false } :: rest
  | n + 1, b :: rest => b :: Subject.markDead n rest

/-- Dropping a `SubjectSubscription` (`subject.rs`): the `Drop` impl is
empty, but dropping the strong `Rc` makes the weak upgrade of the
matching registration fail from then on — that registration is dead. -/
def SubjectSubscription.release {T E : Type} (s : Subject T E) (i : Nat) : Subject T E :=
  ⟨Subject.markDead i s.observers⟩

/-! ### Subscription-helper observers (`src/observer.rs`) -/

/-- A call made to one of the user-supplied callbacks captured by a
subscription-helper observer. -/
inductive CallbackCall (T E : Type) where
  | nextCall (item : T)
  | completedCall
  | errorCall (e : E)
  | optionCall (o : Option T)
  | resultCall (r : Except E (Option T))
deriving Repr

/-- Reaction of a helper observer to one incoming event: the callback
calls it makes, and whether it panics (`panic!` in the source). -/
structure Reaction (T E : Type) where
  calls : List (CallbackCall T E)
  panicked : Bool
deriving Repr

/-- A subscription-helper observer, given by its reaction to each of the
three protocol methods. -/
structure HelperObserver (T E : Type) where
  reactNext : T → Reaction T E
  reactCompleted : Reaction T E
  reactError : E → Reaction T E

/-- Rust `NextObserver` (built by `subscribe_next`): `on_next` calls
`fn_next(item)`, `on_completed` ignores completion, `on_error` panics. -/
def NextObserver (T E : Type) : HelperObserver T E where
  reactNext item := { calls := [CallbackCall.nextCall item], panicked := false }
  reactCompleted := { calls := [], panicked := false }
  reactError _ := { calls := [], panicked := true }

/-- Rust `ErrorObserver` (built by `subscribe_error`): `on_next` calls
`fn_next(item)`, `on_completed` calls `fn_completed()`, `on_error` calls
`fn_error(error)` — no panic anywhere. -/
def ErrorObserver (T E : Type) : HelperObserver T E where
  reactNext item := { calls := [CallbackCall.nextCall item], panicked := false }
  reactCompleted := { calls := [CallbackCall.completedCall], panicked := false }
  reactError e := { calls := [CallbackCall.errorCall e], panicked := false }

/-- Rust `OptionObserver` (built by `subscribe_option`): `on_next` calls
`fn_option(Some(item))`, `on_completed` calls `fn_option(None)`,
`on_error` panics. -/
def OptionObserver (T E : Type) : HelperObserver T E where
  reactNext item := { calls := [CallbackCall.optionCall (some item)], panicked := false }
  reactCompleted := { calls := [CallbackCall.optionCall none], panicked := false }
  reactError _ := { calls := [], panicked := true }

/-- Rust `ResultObserver` (built by `subscribe_result`): `on_next` calls
`fn_result(Ok(Some(item)))`, `on_completed` calls `fn_result(Ok(None))`,
`on_error` calls `fn_result(Err(error))` — no panic anywhere. -/
def ResultObserver (T E : Type) : HelperObserver T E where
  reactNext item :=
    { calls := [CallbackCall.resultCall (Except.ok (some item))], panicked := false }
  reactCompleted :=
    { calls := [CallbackCall.resultCall (Except.ok none)], panicked := false }
  reactError e :=
    { calls := [CallbackCall.resultCall (Except.error e)], panicked := false }

/-- Delivers a sequence of events to a helper observer: accumulate the
callback calls in order; a panicking reaction aborts the run (result
flag `true`), and a terminal event ends it (the observer is consumed). -/
def runHelper {T E : Type} (h : HelperObserver T E) :
    List (Event T E) → List (CallbackCall T E) × Bool
  | [] => ([], false)
  | ev :: rest =>
    let r := match ev with
      | Event.next t => h.reactNext t
      | Event.completed => h.reactCompleted
      | Event.error e => h.reactError e
    if r.panicked then
      (r.calls, true)
    else
      match ev with
      | Event.next _ =>
        let (cs, p) := runHelper h rest
        (r.calls ++ cs, p)
      | _ => (r.calls, false)

/-! ### Finite-container source (`src/lib.rs`) -/

/-- Subscription returned by the finite-container source; its `Drop`
impl does nothing. -/
structure UncancellableSubscription where
deriving Repr, DecidableEq

/-- Dropping an `UncancellableSubscription` is a no-op (empty `Drop`). -/
def UncancellableSubscription.drop (_s : UncancellableSubscription) : Unit := ()

/-- Rust `impl Observable for references to IntoIterator containers`
(`lib.rs`): subscribing iterates the container, calling `on_next` for
every element in iteration order, then calls `on_completed`, then
returns `UncancellableSubscription` — all before `subscribe` returns,
and `on_error` is never called. -/
def iterSubscribe {T E σ : Type} (xs : List T) (o : ObserverSig T E σ) (s : σ) :
    σ × UncancellableSubscription :=
  (o.on_completed (xs.foldl o.on_next s), ⟨⟩)

/-! ### Map and ContinueWith combinators (`src/transform.rs`) -/

/-- Rust `MapObserver` (`transform.rs`): wraps a downstream observer;
`on_next` forwards `f(item)`, the two terminal methods pass straight
through unchanged. -/
def MapObserver {T U E σ : Type} (f : T → U) (o : ObserverSig U E σ) :
    ObserverSig T E σ where
  on_next s item := o.on_next s (f item)
  on_completed s := o.on_completed s
  on_error s e := o.on_error s e

/-- Rust `MapObservable::subscribe` (`transform.rs`): wrap the incoming
observer in a `MapObserver` and subscribe that to the source. -/
def MapObservable.subscribe {T U E σ : Type} (source : SourceRun T E) (f : T → U)
    (o : ObserverSig U E σ) (s : σ) : σ :=
  runSource source (MapObserver f o) s

/-- State threaded through a `ContinueWithObserver` (`transform.rs`):
the downstream observer state, the Lifeline/Owner slot cell holding the
`Option<Subscription>` for the next-subscription (the subscription value
itself is opaque, modelled as `Unit`), and an instrumentation counter of
how many times `next.subscribe` has been invoked. -/
structure ContinueWithState (T E σ : Type) where
  observer : σ
  subscription : LifelineCell (Option Unit)
  subscribeCount : Nat

/-- Rust `ContinueWithObserver` (`transform.rs`): forwards `on_next` and
`on_error` to the downstream observer unchanged; `on_completed` first
subscribes the downstream observer to `next` — which, synchronously,
delivers the whole run of `next` right there — and then stores the
resulting subscription into the slot through `Owner::with_mut_value`
(the `mem::replace(subs, Some(subs_next))`). -/
def ContinueWithObserver {T E σ : Type} (next : SourceRun T E) (o : ObserverSig T E σ) :
    ObserverSig T E (ContinueWithState T E σ) where
  on_next s item := { s with observer := o.on_next s.observer item }
  on_completed s :=
    let observer2 := runSource next o s.observer
    let slot2 := Owner.with_mut_value s.subscription (fun _subs => some ())
    { observer := observer2, subscription := slot2,
      subscribeCount := s.subscribeCount + 1 }
  on_error s e := { s with observer := o.on_error s.observer e }

/-- Rust `ContinueWithObservable::subscribe` (`transform.rs`): create a
fresh Lifeline/Owner slot holding `None`, wrap the observer in a
`ContinueWithObserver` carrying the Owner side, and subscribe that to
`source`; the Lifeline side of the slot is kept in the returned combined
`ContinueWithSubscription`. -/
def ContinueWithObservable.subscribe {T E σ : Type} (source next : SourceRun T E)
    (o : ObserverSig T E σ) (s : σ) : ContinueWithState T E σ :=
  runSource source (ContinueWithObserver next o)
    { observer := s, subscription := lifeline.new none, subscribeCount := 0 }

/-! ### Helper lemmas -/

/-- The recording observer only appends: folding its `on_next` over a
list starting from `s` appends the corresponding `next` events. -/
theorem foldl_recObserver_on_next {T E : Type} (xs : List T) (s : List (Event T E)) :
    xs.foldl (recObserver T E).on_next s = s ++ xs.map Event.next := by
  induction xs generalizing s with
  | nil => simp
  | cons x xs ih =>
    rw [List.foldl_cons, ih]
    simp [recObserver]

/-- Running any source on the recording observer appends the trace of
the source to the prior state. -/
theorem runSource_recObserver {T E : Type} (src : SourceRun T E) (s : List (Event T E)) :
    runSource src (recObserver T E) s
      = s ++ src.items.map Event.next ++ Terminal.events src.terminal := by
  cases src with
  | mk items terminal =>
    cases terminal <;>
      (simp only [runSource]; rw [foldl_recObserver_on_next];
       simp [recObserver, Terminal.events])

/-- Folding the `on_next` of a `MapObserver` over the recording observer
appends the mapped `next` events. -/
theorem foldl_mapObserver_on_next {T U E : Type} (f : T → U) (xs : List T)
    (s : List (Event U E)) :
    xs.foldl (MapObserver f (recObserver U E)).on_next s
      = s ++ (xs.map f).map Event.next := by
  induction xs generalizing s with
  | nil => simp
  | cons x xs ih =>
    rw [List.foldl_cons, ih]
    simp [MapObserver, recObserver]

/-- Item deliveries through a `ContinueWithObserver` only extend the
downstream recording trace: the slot cell and the subscribe counter are
untouched. -/
theorem foldl_cwObserver_on_next {T E : Type} (B : SourceRun T E) (xs : List T)
    (s : List (Event T E)) (cell : LifelineCell (Option Unit)) (n : Nat) :
    xs.foldl (ContinueWithObserver B (recObserver T E)).on_next
        { observer := s, subscription := cell, subscribeCount := n }
      = { observer := s ++ xs.map Event.next, subscription := cell, subscribeCount := n } := by
  induction xs generalizing s with
  | nil => simp
  | cons x xs ih =>
    rw [List.foldl_cons]
    have h1 : (ContinueWithObserver B (recObserver T E)).on_next
        { observer := s, subscription := cell, subscribeCount := n } x
        = { observer := s ++ [Event.next x], subscription := cell, subscribeCount := n } := rfl
    rw [h1, ih]
    simp

/-- Running a source through a `MapObserver` into the recording observer
appends the mapped items and the unchanged terminal. -/
theorem runSource_mapObserver {T U E : Type} (src : SourceRun T E) (f : T → U)
    (s : List (Event U E)) :
    runSource src (MapObserver f (recObserver U E)) s
      = s ++ (src.items.map f).map Event.next ++ Terminal.events src.terminal := by
  cases src with
  | mk items terminal =>
    cases terminal <;>
      (simp only [runSource]; rw [foldl_mapObserver_on_next];
       simp [MapObserver, recObserver, Terminal.events])

/-- Running a source through a `ContinueWithObserver` into the recording
observer: items are forwarded; an error of the source is forwarded with
the slot and counter untouched; a completion of the source triggers the
run of `next` on the downstream observer, the slot update and one
subscribe; a never-terminating source leaves slot and counter alone. -/
theorem runSource_cwObserver {T E : Type} (A B : SourceRun T E)
    (s : List (Event T E)) (cell : LifelineCell (Option Unit)) (n : Nat) :
    runSource A (ContinueWithObserver B (recObserver T E))
        { observer := s, subscription := cell, subscribeCount := n }
      = match A.terminal with
        | Terminal.completed =>
          { observer := s ++ A.items.map Event.next
              ++ B.items.map Event.next ++ Terminal.events B.terminal,
            subscription := Owner.with_mut_value cell (fun _subs => some ()),
            subscribeCount := n + 1 }
        | Terminal.error e =>
          { observer := s ++ A.items.map Event.next ++ [Event.error e],
            subscription := cell, subscribeCount := n }
        | Terminal.never =>
          { observer := s ++ A.items.map Event.next,
            subscription := cell, subscribeCount := n } := by
  cases A with
  | mk items terminal =>
    cases terminal with
    | completed =>
      simp only [runSource]
      rw [foldl_cwObserver_on_next]
      show (ContinueWithObserver B (recObserver T E)).on_completed _ = _
      simp only [ContinueWithObserver]
      rw [runSource_recObserver]
      try simp
    | error e =>
      simp only [runSource]
      rw [foldl_cwObserver_on_next]
      rfl
    | never =>
      simp only [runSource]
      rw [foldl_cwObserver_on_next]

/-- Delivering a block of items to a helper observer whose item reaction
never panics: the per-item callback calls accumulate in order and the
rest of the events are processed afterwards. -/
theorem runHelper_next_block {T E : Type} (h : HelperObserver T E)
    (hn : ∀ t, h.reactNext t = { calls := (h.reactNext t).calls, panicked := false })
    (items : List T) (rest : List (Event T E)) :
    runHelper h (items.map Event.next ++ rest)
      = ((items.map (fun t => (h.reactNext t).calls)).flatten ++ (runHelper h rest).fst,
         (runHelper h rest).snd) := by
  induction items with
  | nil => simp
  | cons t ts ih =>
    have hp : (h.reactNext t).panicked = false := by
      rw [hn t]
    simp only [List.map_cons, List.cons_append, runHelper, hp, List.append_eq]
    rw [ih]
    simp

/-- Flattening a list of singleton blocks is a map. -/
theorem flatten_map_singleton {α β : Type} (f : α → β) (l : List α) :
    (l.map (fun a => [f a])).flatten = l.map f := by
  induction l with
  | nil => rfl
  | cons a l ih => simp [ih]

/-- Characterization of the `Subject::on_next` loop: every alive
registration receives the item appended to its trace, every dead one is
left in place unchanged, and the clone count is the number of alive
registrations. -/
theorem onNextLoop_spec {T E : Type} (item : T) (boxes : List (ObserverBox T E)) :
    Subject.onNextLoop item boxes
      = (boxes.map (fun b =>
            if b.alive then { b with observer := b.observer ++ [Event.next item] } else b),
         (boxes.filter (fun b => b.alive)).length) := by
  induction boxes with
  | nil => rfl
  | cons b rest ih =>
    simp only [Subject.onNextLoop, ih]
    cases hb : b.alive <;> simp [hb, List.filter_cons]

/-- Characterization of the `Subject::on_completed` drain loop: the
alive registrations, in order, each receive the completion; the dead
ones are dropped without any delivery. -/
theorem onCompletedLoop_spec {T E : Type} (boxes : List (ObserverBox T E)) :
    Subject.onCompletedLoop boxes
      = (boxes.filter (fun b => b.alive)).map (fun b => b.observer ++ [Event.completed]) := by
  induction boxes with
  | nil => rfl
  | cons b rest ih =>
    simp only [Subject.onCompletedLoop, ih]
    cases hb : b.alive <;> simp [hb, List.filter_cons]

/-- Characterization of the `Subject::on_error` drain loop: the alive
registrations, in order, each receive the error (one clone per
recipient); the dead ones are dropped without any delivery. -/
theorem onErrorLoop_spec {T E : Type} (e : E) (boxes : List (ObserverBox T E)) :
    Subject.onErrorLoop e boxes
      = ((boxes.filter (fun b => b.alive)).map (fun b => b.observer ++ [Event.error e]),
         (boxes.filter (fun b => b.alive)).length) := by
  induction boxes with
  | nil => rfl
  | cons b rest ih =>
    simp only [Subject.onErrorLoop, ih]
    cases hb : b.alive <;> simp [hb, List.filter_cons]

/-! ### Claim theorems -/

/-- C5: after the Lifeline of a pair has been released, the Owner
operations are silent no-ops: `with_value` never invokes its action and
returns `none`, `with_mut_value` leaves the cell unchanged whatever its
action, and `take` returns `none` and leaves the cell unchanged; each is
a total function of the cell state, with no panic path. -/
theorem owner_noop_after_lifeline_release {T A : Type} (c : LifelineCell T)
    (action : T → A) (mutAction : T → T) :
    Owner.with_value (Lifeline.release c).fst action = none
    ∧ Owner.with_mut_value (Lifeline.release c).fst mutAction = (Lifeline.release c).fst
    ∧ (Owner.take (Lifeline.release c).fst).fst = none
    ∧ (Owner.take (Lifeline.release c).fst).snd = (Lifeline.release c).fst :=
  ⟨rfl, rfl, rfl, rfl⟩

/-- C6: taking from a freshly created, still-alive pair returns the
stored value and leaves the storage permanently empty while the Lifeline
stays attached (`alive` remains true); a later release of the Lifeline
then destroys no value; and taking from a cell whose Lifeline is gone
returns nothing. -/
theorem owner_take_one_shot {T : Type} (v : T) (s : Option T) :
    (Owner.take (lifeline.new v)).fst = some v
    ∧ (Owner.take (lifeline.new v)).snd = { alive := true, stored := none }
    ∧ (Lifeline.release (Owner.take (lifeline.new v)).snd).snd = none
    ∧ (Owner.take { alive := false, stored := s }).fst = none :=
  ⟨rfl, rfl, rfl, rfl⟩

/-- C9: subscribing a recording observer to a finite container source
delivers exactly one `next` event per element in iteration order
followed by exactly one `completed` (all computed by `subscribe` itself,
before it returns), an `error` never occurs in the trace, and releasing
the returned subscription is a no-op. -/
theorem iter_source_protocol {T E : Type} (xs : List T) (sub : UncancellableSubscription) :
    (iterSubscribe xs (recObserver T E) []).fst = xs.map Event.next ++ [Event.completed]
    ∧ (∀ e : E, Event.error e ∉ (iterSubscribe xs (recObserver T E) []).fst)
    ∧ UncancellableSubscription.drop sub = () := by
  have h1 : (iterSubscribe xs (recObserver T E) []).fst
      = xs.map Event.next ++ [Event.completed] := by
    simp only [iterSubscribe]
    rw [foldl_recObserver_on_next]
    simp [recObserver]
  refine ⟨h1, ?_, rfl⟩
  intro e
  rw [h1]
  simp

/-- Witness for C9 at the concrete container [2, 3]. -/
theorem iter_source_protocol_witness :
    (iterSubscribe [2, 3] (recObserver Nat Nat) []).fst
      = [2, 3].map Event.next ++ [Event.completed] :=
  (iter_source_protocol [2, 3] ⟨⟩).1

/-- C7: subscribing a recording observer to Map(source, f) yields
`next (f item)` for each item of the source in order, with the terminal
of the source passed through unchanged; in particular the sequence
[2, 3, 5, 7, 11, 13] mapped by doubling records [4, 6, 10, 14, 22, 26]
followed by completion. -/
theorem map_trace {T U E : Type} (source : SourceRun T E) (f : T → U) :
    MapObservable.subscribe source f (recObserver U E) []
        = (source.items.map f).map Event.next ++ Terminal.events source.terminal
    ∧ MapObservable.subscribe
        { items := [2, 3, 5, 7, 11, 13], terminal := Terminal.completed }
        (fun x => x * 2) (recObserver Nat Nat) []
        = [Event.next 4, Event.next 6, Event.next 10, Event.next 14,
           Event.next 22, Event.next 26, Event.completed] := by
  constructor
  · simp only [MapObservable.subscribe]
    rw [runSource_mapObserver]
    simp
  · rfl

/-- C8: on a source run that ends in an error, the value-only helper
(`NextObserver`) and the optional-wrapped helper (`OptionObserver`)
panic at the error after having forwarded the items, while the
three-callback helper (`ErrorObserver`) routes the error to the
user-supplied `fn_error` and the result-wrapped helper
(`ResultObserver`) delivers it as the `Err` case to `fn_result`, neither
of them panicking. -/
theorem helper_observer_error_handling {T E : Type} (items : List T) (e : E) :
    runHelper (NextObserver T E) (items.map Event.next ++ [Event.error e])
        = (items.map CallbackCall.nextCall, true)
    ∧ runHelper (OptionObserver T E) (items.map Event.next ++ [Event.error e])
        = (items.map (fun t => CallbackCall.optionCall (some t)), true)
    ∧ runHelper (ErrorObserver T E) (items.map Event.next ++ [Event.error e])
        = (items.map CallbackCall.nextCall ++ [CallbackCall.errorCall e], false)
    ∧ runHelper (ResultObserver T E) (items.map Event.next ++ [Event.error e])
        = (items.map (fun t => CallbackCall.resultCall (Except.ok (some t)))
            ++ [CallbackCall.resultCall (Except.error e)], false) := by
  refine ⟨?_, ?_, ?_, ?_⟩ <;>
    (rw [runHelper_next_block _ (fun t => rfl)];
     simp [NextObserver, OptionObserver, ErrorObserver, ResultObserver,
           runHelper, flatten_map_singleton])

/-- C4: one `on_next` on a Subject clones the item exactly once per
alive registration (N clones for N live registrations, dead ones cause
no clone), delivers it to each alive registration in collection order,
leaves dead registrations untouched, and has no effect at all when the
registration collection is empty. -/
theorem subject_on_next_broadcast {T E : Type} (boxes : List (ObserverBox T E)) (item : T) :
    (Subject.on_next ⟨boxes⟩ item).snd = (boxes.filter (fun b => b.alive)).length
    ∧ (Subject.on_next ⟨boxes⟩ item).fst.observers
        = boxes.map (fun b =>
            if b.alive then { b with observer := b.observer ++ [Event.next item] } else b)
    ∧ Subject.on_next (⟨[]⟩ : Subject T E) item = (⟨[]⟩, 0) := by
  refine ⟨?_, ?_, rfl⟩ <;> simp [Subject.on_next, onNextLoop_spec]

/-- C3: the terminal operations of a Subject consume it (the model
returns no Subject value, matching `mut self` in the source, so no
second terminal broadcast is possible) and drain the whole registration
collection: every alive registration receives exactly the one terminal
call, the error being cloned once per alive recipient, and dead
registrations are dropped without any delivery. -/
theorem subject_terminal_broadcast {T E : Type} (boxes : List (ObserverBox T E)) (e : E) :
    Subject.on_completed ⟨boxes⟩
        = (boxes.filter (fun b => b.alive)).map (fun b => b.observer ++ [Event.completed])
    ∧ (Subject.on_error ⟨boxes⟩ e).fst
        = (boxes.filter (fun b => b.alive)).map (fun b => b.observer ++ [Event.error e])
    ∧ (Subject.on_error ⟨boxes⟩ e).snd = (boxes.filter (fun b => b.alive)).length := by
  refine ⟨?_, ?_, ?_⟩ <;>
    simp [Subject.on_completed, Subject.on_error, onCompletedLoop_spec, onErrorLoop_spec]

/-- C1 (evaluation at the failing input): subscribe one observer to a
fresh Subject, release its subscription, then broadcast one item. The
claim says the dead registration is recorded during the pass and removed
afterwards; in the source the dead branch of `Subject::on_next` holds
only a TODO comment, so the dead registration is still in the collection
after the broadcast. -/
theorem subject_on_next_leaves_dead_registration :
    (Subject.on_next
        (SubjectSubscription.release
          (SubjectObservable.subscribe (⟨[]⟩ : Subject Nat Nat)) 0) 5).fst.observers
      = [{ observer := [], alive := false }] := rfl

/-- C2: for ContinueWith(A, B) subscribed with a recording downstream
observer: item deliveries from A never subscribe B (the counter is
unchanged by any item prefix); if A signals an error, the observer
receives the items of A followed by that error, B is never subscribed
(counter 0) and the slot still holds its initial `None`; if A completes,
the observer receives the items of A, then the items of B, then the
terminal of B, and B is subscribed exactly once (counter 1, the slot now
storing the next-subscription). -/
theorem continueWith_sequencing {T E : Type} (itemsA : List T) (B : SourceRun T E) (e : E) :
    (∀ (s : List (Event T E)) (cell : LifelineCell (Option Unit)) (n : Nat),
      (itemsA.foldl (ContinueWithObserver B (recObserver T E)).on_next
          { observer := s, subscription := cell, subscribeCount := n }).subscribeCount = n)
    ∧ ContinueWithObservable.subscribe { items := itemsA, terminal := Terminal.error e } B
          (recObserver T E) []
        = { observer := itemsA.map Event.next ++ [Event.error e],
            subscription := { alive := true, stored := some none },
            subscribeCount := 0 }
    ∧ ContinueWithObservable.subscribe { items := itemsA, terminal := Terminal.completed } B
          (recObserver T E) []
        = { observer := itemsA.map Event.next ++ B.items.map Event.next
              ++ Terminal.events B.terminal,
            subscription := { alive := true, stored := some (some ()) },
            subscribeCount := 1 } := by
  refine ⟨?_, ?_, ?_⟩
  · intro s cell n
    rw [foldl_cwObserver_on_next]
  · simp only [ContinueWithObservable.subscribe]
    rw [runSource_cwObserver]
    rfl
  · simp only [ContinueWithObservable.subscribe]
    rw [runSource_cwObserver]
    rfl

/-- C10: when the slot cell is already dead (the combined ContinueWith
subscription was released before the source completed), the adapter
still subscribes the downstream observer to `next` unconditionally on
`on_completed`: the recording observer receives the whole synchronous
run of `next`, the `with_mut_value` store is a no-op leaving the dead
cell unchanged (so the fresh next-subscription is dropped on return),
and the subscribe counter still increments. -/
theorem continueWith_completed_after_release {T E : Type} (B : SourceRun T E)
    (s : List (Event T E)) (stored : Option (Option Unit)) (n : Nat) :
    ((ContinueWithObserver B (recObserver T E)).on_completed
        { observer := s, subscription := { alive := false, stored := stored },
          subscribeCount := n }).observer
        = s ++ B.items.map Event.next ++ Terminal.events B.terminal
    ∧ ((ContinueWithObserver B (recObserver T E)).on_completed
        { observer := s, subscription := { alive := false, stored := stored },
          subscribeCount := n }).subscription
        = { alive := false, stored := stored }
    ∧ ((ContinueWithObserver B (recObserver T E)).on_completed
        { observer := s, subscription := { alive := false, stored := stored },
          subscribeCount := n }).subscribeCount = n + 1 := by
  refine ⟨?_, rfl, rfl⟩
  show runSource B (recObserver T E) s = _
  rw [runSource_recObserver]

end Rx
